import Mathlib

/-!
Verification of the financial-metric derivation pipeline and the sentiment
threshold classifier of `src/app.py` (a Streamlit stock dashboard).

The embedding models:
 * `classifySentiment` — the threshold bucketing of `analyze_sentiment_vader`
   (lines 30–39), applied to the compound polarity score produced by the
   external VADER scorer;
 * `buildRows` — the per-ticker row builder (lines 60–67): one `YearlyRow`
   per column of the provider's financial-statement table;
 * `calculate_financial_metrics` — the metric table assembler
   (lines 53–94): guarded ratio computation and final Year stringification.

Numeric cells are modelled over ℚ with explicit tags for NaN / missing
(`Cell`) and for the IEEE-style results of an unguarded division
(`MVal`: finite, ±∞, or NaN), since Python floats divide by zero without
raising.
-/

namespace StockApp

/-- A cell of the provider's table / of a derived yearly row, as seen by
`row.get(item, None)` in the source: missing (`Python None`), NaN, or a
finite number. -/
inductive Cell where
  | none : Cell
  | nan : Cell
  | num : ℚ → Cell
deriving DecidableEq, Repr

/-- `pd.notnull`: true exactly on actual numbers (None and NaN are null). -/
def notnull : Cell → Bool
  | Cell.num _ => true
  | _ => false

/-- The numeric content of a non-null cell (only ever applied under a
`notnull` guard, mirroring the source, where the guarded branch uses the
float directly). -/
def cellNum : Cell → ℚ
  | Cell.num q => q
  | _ => 0

/-- The value domain of a Python float arithmetic result: finite, +∞, -∞,
or NaN.  The source's `(numerator / total_revenue) * 100` never raises;
division by zero follows IEEE semantics. -/
inductive MVal where
  | fin : ℚ → MVal
  | posInf : MVal
  | negInf : MVal
  | nan : MVal
deriving DecidableEq, Repr

/-- IEEE division of two finite floats: `a / 0` is `±∞` for `a ≠ 0` and
NaN for `a = 0`; otherwise the exact quotient. -/
def ieeeDiv (a b : ℚ) : MVal :=
  if b = 0 then
    if a = 0 then MVal.nan
    else if a > 0 then MVal.posInf
    else MVal.negInf
  else MVal.fin (a / b)

/-- IEEE multiplication of a float result by a finite constant (the
source multiplies by 100). -/
def ieeeMulC (v : MVal) (c : ℚ) : MVal :=
  match v with
  | MVal.fin q => MVal.fin (q * c)
  | MVal.posInf => if c > 0 then MVal.posInf else if c < 0 then MVal.negInf else MVal.nan
  | MVal.negInf => if c > 0 then MVal.negInf else if c < 0 then MVal.posInf else MVal.nan
  | MVal.nan => MVal.nan

/-- The threshold bucketing of `analyze_sentiment_vader` (source lines
30–39), as a function of the compound polarity score. -/
def classifySentiment (c : ℚ) : String :=
  if c ≥ 1/2 then "Extremely Positive"
  else if c > 0 then "Positive"
  else if c ≤ -(1/2) then "Extremely Negative"
  else if c < 0 then "Negative"
  else "Neutral"

/-- One column of a provider `FinancialStatementTable`: a fiscal-period
end date, of which only the calendar year (`pd.to_datetime(year).year`,
source line 62) is consumed, together with the column's value for each
line-item label (`financials.loc[item][year]`, line 65). -/
structure FinColumn where
  year : Int
  entry : String → Cell

/-- A provider `FinancialStatementTable`: row labels are line-item names
(`financials.index`), columns are fiscal periods (`financials.columns`). -/
structure FinTable where
  index : List String
  cols : List FinColumn

/-- A derived yearly row (source lines 62–66): the column's calendar year
plus a dict copying every line item of the column. -/
structure YearlyRow where
  year : Int
  items : List (String × Cell)
deriving DecidableEq, Repr

/-- `row.get(key, None)` (source lines 78–81): dictionary lookup with
`None` as default. -/
def rowGet (r : YearlyRow) (k : String) : Cell :=
  match r.items.find? (fun p => p.1 == k) with
  | some p => p.2
  | Option.none => Cell.none

/-- Build one `YearlyRow` from one column (source lines 62–66):
`row = {'Year': year_dt}` then `row[item] = financials.loc[item][year]`
for every `item` in `financials.index`. -/
def buildRow (t : FinTable) (c : FinColumn) : YearlyRow :=
  { year := c.year, items := t.index.map (fun item => (item, c.entry item)) }

/-- The per-ticker row builder (source lines 60–67): one row is appended
to `data` per column, in column order. -/
def buildRows (t : FinTable) : List YearlyRow :=
  t.cols.map (buildRow t)

/-- `financial_data[ticker]` after the first loop (source lines 54–67):
the dict maps each ticker to an empty frame when `get_financials`
returned `None` (lines 58–59 leave the line-54 initialization in place),
and to the built rows otherwise. The provider (`get_financials`) is the
external collaborator, passed in as a function. -/
def financial_data (provider : String → Option FinTable) (ticker : String) :
    List YearlyRow :=
  match provider ticker with
  | Option.none => []
  | some t => buildRows t

/-- A metric record as first appended (source line 91): `Year` is still
the integer `int(year)`. -/
structure MetricRecordI where
  year : Int
  metric : String
  ticker : String
  value : MVal
deriving DecidableEq, Repr

/-- A record of the returned `metric_data` frame, after
`metric_data['Year'] = metric_data['Year'].astype(str)` (line 93):
columns `Year, Metric, Ticker, Value` with `Year` a string. -/
structure MetricRecord where
  year : String
  metric : String
  ticker : String
  value : MVal
deriving DecidableEq, Repr

/-- The guarded metric computation for one row (source lines 77–90):
`None` when the guard chain falls through to `continue`. -/
def metricValue (metric : String) (r : YearlyRow) : Option MVal :=
  let total_revenue := rowGet r "Total Revenue"
  let net_income := rowGet r "Net Income"
  let gross_profit := rowGet r "Gross Profit"
  let operating_income := rowGet r "Operating Income"
  if notnull total_revenue then
    if metric == "Gross Profit Margin" && notnull gross_profit then
      some (ieeeMulC (ieeeDiv (cellNum gross_profit) (cellNum total_revenue)) 100)
    else if metric == "Net Profit Margin" && notnull net_income then
      some (ieeeMulC (ieeeDiv (cellNum net_income) (cellNum total_revenue)) 100)
    else if metric == "Operating Margin" && notnull operating_income then
      some (ieeeMulC (ieeeDiv (cellNum operating_income) (cellNum total_revenue)) 100)
    else Option.none
  else Option.none

/-- The records appended for one (ticker, metric, row) triple (source
lines 77–91): one record when the guard chain produces a value, none
otherwise. -/
def rowRecord (ticker metric : String) (r : YearlyRow) : List MetricRecordI :=
  match metricValue metric r with
  | some v => [⟨r.year, metric, ticker, v⟩]
  | Option.none => []

/-- Line 93: the final `astype(str)` on the `Year` column. -/
def finalizeRecord (rec : MetricRecordI) : MetricRecord :=
  ⟨toString rec.year, rec.metric, rec.ticker, rec.value⟩

/-- One iteration of the outer ticker loop (source lines 71–91): the
`df.empty` skip (lines 73–74) followed by the metric and row loops. -/
def tickerRecords (provider : String → Option FinTable) (metrics : List String)
    (ticker : String) : List MetricRecordI :=
  let df := financial_data provider ticker
  if df.isEmpty then []
  else metrics.flatMap (fun metric => df.flatMap (fun row => rowRecord ticker metric row))

/-- `calculate_financial_metrics` (source lines 53–94): the triple nested
append loop over tickers (line 71), metrics (line 75) and rows (line 76),
followed by the Year stringification (line 93). -/
def calculate_financial_metrics (provider : String → Option FinTable)
    (tickers metrics : List String) : List MetricRecord :=
  (tickers.flatMap (tickerRecords provider metrics)).map finalizeRecord

/-- A concrete one-column table used by witnesses: fiscal year 2023,
Total Revenue 200, Gross Profit 80, Net Income 50, Operating Income 30. -/
def tableEx : FinTable :=
  { index := ["Total Revenue", "Gross Profit", "Net Income", "Operating Income"]
    cols := [{ year := 2023
               entry := fun k =>
                 if k == "Total Revenue" then Cell.num 200
                 else if k == "Gross Profit" then Cell.num 80
                 else if k == "Net Income" then Cell.num 50
                 else if k == "Operating Income" then Cell.num 30
                 else Cell.nan }] }

/-- A concrete provider used by witnesses: knows only the ticker AAPL. -/
def provEx : String → Option FinTable :=
  fun t => if t == "AAPL" then some tableEx else Option.none

/-- A provider agreeing with `provEx` on AAPL but differing elsewhere. -/
def provEx2 : String → Option FinTable :=
  fun t => if t == "MSFT" then some tableEx else provEx t

/-- A table with two fiscal-period columns whose dates fall in the same
calendar year 2023 (e.g. a January and a December period end). -/
def tableDup : FinTable :=
  { index := ["Total Revenue", "Gross Profit"]
    cols := [{ year := 2023
               entry := fun k => if k == "Total Revenue" then Cell.num 100 else Cell.num 60 },
             { year := 2023
               entry := fun k => if k == "Total Revenue" then Cell.num 200 else Cell.num 80 }] }

/-- A provider returning `tableDup` for the ticker A. -/
def provDup : String → Option FinTable :=
  fun t => if t == "A" then some tableDup else Option.none

/-- The single record the assembler produces for AAPL under `provEx`
with the Gross Profit Margin metric: 80/200·100 = 40. -/
def recEx : MetricRecord :=
  { year := "2023", metric := "Gross Profit Margin", ticker := "AAPL",
    value := MVal.fin 40 }

/-- A concrete yearly row used by witnesses: Total Revenue 200,
Gross Profit 80, Net Income NaN, no Operating Income line item. -/
def rowEx : YearlyRow :=
  { year := 2023
    items := [("Total Revenue", Cell.num 200), ("Gross Profit", Cell.num 80),
              ("Net Income", Cell.nan)] }

/-- A concrete row with zero Total Revenue and numerators of all three
signs, used to witness C4. -/
def rowZero : YearlyRow :=
  { year := 2022
    items := [("Total Revenue", Cell.num 0), ("Gross Profit", Cell.num 5),
              ("Net Income", Cell.num 0), ("Operating Income", Cell.num (-3))] }

/-- C1: for any ticker and yearly row, a Gross Profit Margin record is
emitted exactly when `Total Revenue` and `Gross Profit` are non-null
numbers (None and NaN count as null), with value
`GrossProfit / TotalRevenue * 100`; analogously Net Profit Margin uses
`Net Income` and Operating Margin uses `Operating Income`; when the guard
fails the row contributes no record (and no error — `rowRecord` is total). -/
theorem C1_metric_guard_and_value (tk : String) (r : YearlyRow) :
    (∀ n d : ℚ, rowGet r "Total Revenue" = Cell.num d →
        rowGet r "Gross Profit" = Cell.num n →
        rowRecord tk "Gross Profit Margin" r
          = [⟨r.year, "Gross Profit Margin", tk, ieeeMulC (ieeeDiv n d) 100⟩])
    ∧ ((notnull (rowGet r "Total Revenue") && notnull (rowGet r "Gross Profit")) = false →
        rowRecord tk "Gross Profit Margin" r = [])
    ∧ (∀ n d : ℚ, rowGet r "Total Revenue" = Cell.num d →
        rowGet r "Net Income" = Cell.num n →
        rowRecord tk "Net Profit Margin" r
          = [⟨r.year, "Net Profit Margin", tk, ieeeMulC (ieeeDiv n d) 100⟩])
    ∧ ((notnull (rowGet r "Total Revenue") && notnull (rowGet r "Net Income")) = false →
        rowRecord tk "Net Profit Margin" r = [])
    ∧ (∀ n d : ℚ, rowGet r "Total Revenue" = Cell.num d →
        rowGet r "Operating Income" = Cell.num n →
        rowRecord tk "Operating Margin" r
          = [⟨r.year, "Operating Margin", tk, ieeeMulC (ieeeDiv n d) 100⟩])
    ∧ ((notnull (rowGet r "Total Revenue") && notnull (rowGet r "Operating Income")) = false →
        rowRecord tk "Operating Margin" r = []) := by
  refine ⟨?_, ?_, ?_, ?_, ?_, ?_⟩
  · intro n d htr hgp
    simp [rowRecord, metricValue, htr, hgp, notnull, cellNum]
  · intro h
    rcases Bool.and_eq_false_iff.mp h with h1 | h2
    · simp [rowRecord, metricValue, h1]
    · by_cases h1 : notnull (rowGet r "Total Revenue") = true
      · simp [rowRecord, metricValue, h1, h2]
      · simp only [Bool.not_eq_true] at h1
        simp [rowRecord, metricValue, h1]
  · intro n d htr hni
    simp [rowRecord, metricValue, htr, hni, notnull, cellNum]
  · intro h
    rcases Bool.and_eq_false_iff.mp h with h1 | h2
    · simp [rowRecord, metricValue, h1]
    · by_cases h1 : notnull (rowGet r "Total Revenue") = true
      · simp [rowRecord, metricValue, h1, h2]
      · simp only [Bool.not_eq_true] at h1
        simp [rowRecord, metricValue, h1]
  · intro n d htr hoi
    simp [rowRecord, metricValue, htr, hoi, notnull, cellNum]
  · intro h
    rcases Bool.and_eq_false_iff.mp h with h1 | h2
    · simp [rowRecord, metricValue, h1]
    · by_cases h1 : notnull (rowGet r "Total Revenue") = true
      · simp [rowRecord, metricValue, h1, h2]
      · simp only [Bool.not_eq_true] at h1
        simp [rowRecord, metricValue, h1]

/-- Witness for C1 on `rowEx`: the Gross Profit Margin record is emitted
with value 40, and the Net Profit Margin (NaN numerator) and Operating
Margin (missing numerator) rows are skipped. -/
theorem C1_metric_guard_and_value_witness :
    rowRecord "AAPL" "Gross Profit Margin" rowEx
      = [⟨2023, "Gross Profit Margin", "AAPL", MVal.fin 40⟩]
    ∧ rowRecord "AAPL" "Net Profit Margin" rowEx = []
    ∧ rowRecord "AAPL" "Operating Margin" rowEx = [] := by
  refine ⟨?_, ?_, ?_⟩
  · have h := (C1_metric_guard_and_value "AAPL" rowEx).1 80 200 (by decide) (by decide)
    rw [h]
    simp [ieeeDiv, ieeeMulC, rowEx]
    norm_num
  · exact (C1_metric_guard_and_value "AAPL" rowEx).2.2.2.1 (by decide)
  · exact (C1_metric_guard_and_value "AAPL" rowEx).2.2.2.2.2 (by decide)

/-- C5: the sentiment classifier maps `c ≥ 0.5` to Extremely Positive,
`0 < c < 0.5` to Positive, `c ≤ -0.5` to Extremely Negative,
`-0.5 < c < 0` to Negative, and `c = 0` to Neutral; in particular the
boundaries `±0.5` land in the extreme buckets. -/
theorem C5_sentiment_thresholds (c : ℚ) :
    (c ≥ 1/2 → classifySentiment c = "Extremely Positive")
    ∧ (0 < c → c < 1/2 → classifySentiment c = "Positive")
    ∧ (c ≤ -(1/2) → classifySentiment c = "Extremely Negative")
    ∧ (-(1/2) < c → c < 0 → classifySentiment c = "Negative")
    ∧ (c = 0 → classifySentiment c = "Neutral") := by
  unfold classifySentiment
  refine ⟨?_, ?_, ?_, ?_, ?_⟩
  · intro h; rw [if_pos h]
  · intro h1 h2
    rw [if_neg (by linarith), if_pos h1]
  · intro h
    rw [if_neg (by linarith), if_neg (by linarith), if_pos h]
  · intro h1 h2
    rw [if_neg (by linarith), if_neg (by linarith), if_neg (by linarith), if_pos h2]
  · intro h; subst h
    norm_num

/-- Witness for C5: concrete scores for each bucket, with the `±0.5`
boundary cases. -/
theorem C5_sentiment_thresholds_witness :
    classifySentiment (1/2) = "Extremely Positive"
    ∧ classifySentiment (1/10) = "Positive"
    ∧ classifySentiment (-(1/2)) = "Extremely Negative"
    ∧ classifySentiment (-(1/10)) = "Negative"
    ∧ classifySentiment 0 = "Neutral" :=
  ⟨(C5_sentiment_thresholds (1/2)).1 (by norm_num),
   (C5_sentiment_thresholds (1/10)).2.1 (by norm_num) (by norm_num),
   (C5_sentiment_thresholds (-(1/2))).2.2.1 (by norm_num),
   (C5_sentiment_thresholds (-(1/10))).2.2.2.1 (by norm_num) (by norm_num),
   (C5_sentiment_thresholds 0).2.2.2.2 rfl⟩

/-- C2 counterexample: against the claim that duplicate-year columns
overwrite each other, a table with two columns whose dates fall in
calendar year 2023 yields TWO yearly rows for that year: `data.append`
(source line 66) runs once per column, and nothing is keyed by year.
The first row keeps the first column's values (no overwrite), and the
final metric table also contains two records for (A, 2023). -/
theorem C2_counterexample :
    buildRows tableDup
      = [{ year := 2023,
           items := [("Total Revenue", Cell.num 100), ("Gross Profit", Cell.num 60)] },
         { year := 2023,
           items := [("Total Revenue", Cell.num 200), ("Gross Profit", Cell.num 80)] }]
    ∧ ¬ (buildRows tableDup).Pairwise (fun a b => a.year ≠ b.year)
    ∧ (calculate_financial_metrics provDup ["A"] ["Gross Profit Margin"]).map
        MetricRecord.year = ["2023", "2023"] := by
  refine ⟨by decide, by decide, by decide⟩

/-- C2 amended: the row builder emits exactly one `YearlyRow` per source
column, in column order; columns sharing a calendar year each keep their
own row (the year value repeats), with no overwrite or deduplication. -/
theorem C2_amended_row_per_column (t : FinTable) :
    (buildRows t).length = t.cols.length
    ∧ (buildRows t).map YearlyRow.year = t.cols.map FinColumn.year
    ∧ ∀ y : Int, (buildRows t).countP (fun r => r.year == y)
        = t.cols.countP (fun c => c.year == y) := by
  refine ⟨by simp [buildRows], ?_, ?_⟩
  · simp [buildRows, List.map_map]
    intro a _
    rfl
  · intro y
    simp [buildRows, List.countP_map]
    rfl

/-- A record appended for (ticker, metric, row) carries that ticker and
that metric (line 91 writes the loop variables into the frame). -/
lemma ticker_metric_of_mem_rowRecord {rec : MetricRecordI} {tk m : String}
    {r : YearlyRow} (h : rec ∈ rowRecord tk m r) :
    rec.ticker = tk ∧ rec.metric = m := by
  unfold rowRecord at h
  cases hv : metricValue m r with
  | none => rw [hv] at h; simp at h
  | some v =>
      rw [hv] at h
      simp at h
      subst h
      exact ⟨rfl, rfl⟩

/-- A record of one ticker-loop iteration carries that ticker. -/
lemma ticker_of_mem_tickerRecords {rec : MetricRecordI}
    {provider : String → Option FinTable} {metrics : List String} {tk : String}
    (h : rec ∈ tickerRecords provider metrics tk) : rec.ticker = tk := by
  simp only [tickerRecords] at h
  split at h
  · simp at h
  · rcases List.mem_flatMap.mp h with ⟨m, _, hm⟩
    rcases List.mem_flatMap.mp hm with ⟨r, _, hr⟩
    exact (ticker_metric_of_mem_rowRecord hr).1

/-- A ticker whose fetch failed keeps its line-54 empty frame, so its
loop iteration appends nothing. -/
lemma tickerRecords_eq_nil_of_none {provider : String → Option FinTable}
    {tk : String} (metrics : List String) (h : provider tk = Option.none) :
    tickerRecords provider metrics tk = [] := by
  simp [tickerRecords, financial_data, h]

/-- Elements mapped to `[]` can be dropped from a `flatMap`. -/
lemma flatMap_eq_flatMap_filter {α β : Type} (f : α → List β) (p : α → Bool) :
    ∀ l : List α, (∀ a ∈ l, p a = false → f a = []) →
      l.flatMap f = (l.filter p).flatMap f := by
  intro l
  induction l with
  | nil => intro _; rfl
  | cons a l ih =>
    intro h
    rw [List.flatMap_cons, List.filter_cons]
    by_cases hp : p a = true
    · rw [if_pos hp, List.flatMap_cons,
        ih (fun b hb hpb => h b (List.mem_cons_of_mem a hb) hpb)]
    · have hf : p a = false := by revert hp; cases p a <;> simp
      rw [h a (List.mem_cons_self a l) hf, if_neg (by simp [hf]), List.nil_append,
        ih (fun b hb hpb => h b (List.mem_cons_of_mem a hb) hpb)]

/-- C3: when the provider returns `None` for some ticker, the assembler
does not raise; that ticker contributes zero records (no output record
carries it), and dropping it from the ticker list leaves the output
unchanged — the remaining tickers are still processed. -/
theorem C3_absent_ticker_contributes_nothing (provider : String → Option FinTable)
    (tickers metrics : List String) (t : String) (h : provider t = Option.none) :
    (∀ rec ∈ calculate_financial_metrics provider tickers metrics, rec.ticker ≠ t)
    ∧ calculate_financial_metrics provider tickers metrics
        = calculate_financial_metrics provider
            (tickers.filter (fun x => !(x == t))) metrics := by
  constructor
  · intro rec hrec
    rcases List.mem_map.mp hrec with ⟨ri, hri, hfin⟩
    rcases List.mem_flatMap.mp hri with ⟨tk, _, hmem⟩
    have hne : tk ≠ t := by
      rintro rfl
      rw [tickerRecords_eq_nil_of_none metrics h] at hmem
      simp at hmem
    have hrt : rec.ticker = tk := by
      rw [← hfin]
      exact ticker_of_mem_tickerRecords hmem
    rw [hrt]
    exact hne
  · unfold calculate_financial_metrics
    congr 1
    apply flatMap_eq_flatMap_filter
    intro a _ hpa
    have ha : a = t := by
      revert hpa
      cases hae : a == t
      · simp
      · intro _
        exact eq_of_beq hae
    subst ha
    exact tickerRecords_eq_nil_of_none metrics h

/-- Witness for C3: `provEx` has no data for ZZZZ, and dropping ZZZZ from
the ticker list leaves the metric table unchanged. -/
theorem C3_absent_ticker_witness :
    calculate_financial_metrics provEx ["AAPL", "ZZZZ"] ["Gross Profit Margin"]
      = calculate_financial_metrics provEx
          (["AAPL", "ZZZZ"].filter (fun x => !(x == "ZZZZ"))) ["Gross Profit Margin"] :=
  (C3_absent_ticker_contributes_nothing provEx ["AAPL", "ZZZZ"]
    ["Gross Profit Margin"] "ZZZZ" rfl).2

/-- C4: a zero `Total Revenue` is not guarded against: when the
denominator is the number 0 and the requested metric's numerator is a
non-null number, a record is still emitted, and its value is the literal
IEEE result of `numerator / 0 * 100` — positive infinity, negative
infinity, or NaN, never a finite number; no record is skipped and no
error is raised. -/
theorem C4_zero_revenue_unguarded (tk : String) (r : YearlyRow)
    (h : rowGet r "Total Revenue" = Cell.num 0) :
    (∀ n : ℚ, rowGet r "Gross Profit" = Cell.num n →
        rowRecord tk "Gross Profit Margin" r
          = [⟨r.year, "Gross Profit Margin", tk, ieeeMulC (ieeeDiv n 0) 100⟩])
    ∧ (∀ n : ℚ, rowGet r "Net Income" = Cell.num n →
        rowRecord tk "Net Profit Margin" r
          = [⟨r.year, "Net Profit Margin", tk, ieeeMulC (ieeeDiv n 0) 100⟩])
    ∧ (∀ n : ℚ, rowGet r "Operating Income" = Cell.num n →
        rowRecord tk "Operating Margin" r
          = [⟨r.year, "Operating Margin", tk, ieeeMulC (ieeeDiv n 0) 100⟩])
    ∧ (∀ n q : ℚ, ieeeMulC (ieeeDiv n 0) 100 ≠ MVal.fin q) := by
  refine ⟨?_, ?_, ?_, ?_⟩
  · intro n hn
    simp [rowRecord, metricValue, h, hn, notnull, cellNum]
  · intro n hn
    simp [rowRecord, metricValue, h, hn, notnull, cellNum]
  · intro n hn
    simp [rowRecord, metricValue, h, hn, notnull, cellNum]
  · intro n q
    simp only [ieeeDiv, if_pos rfl]
    split_ifs <;> norm_num [ieeeMulC] <;> simp

/-- Witness for C4 on `rowZero`: 5/0·100 is +∞, 0/0·100 is NaN,
(-3)/0·100 is -∞ — each still emitted as a record. -/
theorem C4_zero_revenue_unguarded_witness :
    rowRecord "T" "Gross Profit Margin" rowZero
      = [⟨2022, "Gross Profit Margin", "T", MVal.posInf⟩]
    ∧ rowRecord "T" "Net Profit Margin" rowZero
      = [⟨2022, "Net Profit Margin", "T", MVal.nan⟩]
    ∧ rowRecord "T" "Operating Margin" rowZero
      = [⟨2022, "Operating Margin", "T", MVal.negInf⟩] := by
  have h := C4_zero_revenue_unguarded "T" rowZero (by decide)
  refine ⟨?_, ?_, ?_⟩
  · rw [h.1 5 (by decide)]
    norm_num [ieeeDiv, ieeeMulC, rowZero]
  · rw [h.2.1 0 (by decide)]
    norm_num [ieeeDiv, ieeeMulC, rowZero]
  · rw [h.2.2.1 (-3) (by decide)]
    norm_num [ieeeDiv, ieeeMulC, rowZero]

/-- The rows derived for a ticker carry the source table's column years,
in column order. -/
lemma buildRows_map_year (t : FinTable) :
    (buildRows t).map YearlyRow.year = t.cols.map FinColumn.year := by
  simp [buildRows, List.map_map]
  intro a _
  rfl

/-- One ticker-loop iteration, with the redundant `df.empty` skip removed
and the final Year stringification pushed inside. -/
lemma tickerRecords_map_finalize (provider : String → Option FinTable)
    (metrics : List String) (tk : String) :
    (tickerRecords provider metrics tk).map finalizeRecord
      = metrics.flatMap (fun m => (financial_data provider tk).flatMap
          (fun r => (rowRecord tk m r).map finalizeRecord)) := by
  simp only [tickerRecords]
  split
  · next hemp =>
      rw [List.isEmpty_iff.mp hemp]
      simp
  · rw [List.map_flatMap]
    congr 1
    funext m
    rw [List.map_flatMap]

/-- C6: the metric table is exactly the ticker-major (caller order),
then metric-major (caller order), then row-order concatenation of the
per-row records; and each ticker's row sequence follows the provider
table's column order, with no sorting by year. -/
theorem C6_output_order (provider : String → Option FinTable)
    (tickers metrics : List String) :
    calculate_financial_metrics provider tickers metrics
      = tickers.flatMap (fun tk => metrics.flatMap (fun m =>
          (financial_data provider tk).flatMap
            (fun r => (rowRecord tk m r).map finalizeRecord)))
    ∧ ∀ tk t, provider tk = some t →
        (financial_data provider tk).map YearlyRow.year
          = t.cols.map FinColumn.year := by
  constructor
  · unfold calculate_financial_metrics
    rw [List.map_flatMap]
    congr 1
    funext tk
    exact tickerRecords_map_finalize provider metrics tk
  · intro tk t h
    rw [show financial_data provider tk = buildRows t by simp [financial_data, h]]
    exact buildRows_map_year t

/-- Witness for C6 at the concrete provider `provEx`: the flattened form
of the output, and AAPL's row years matching `tableEx`'s column years. -/
theorem C6_output_order_witness :
    calculate_financial_metrics provEx ["AAPL"] ["Operating Margin"]
      = ["AAPL"].flatMap (fun tk => ["Operating Margin"].flatMap (fun m =>
          (financial_data provEx tk).flatMap
            (fun r => (rowRecord tk m r).map finalizeRecord)))
    ∧ (financial_data provEx "AAPL").map YearlyRow.year
        = tableEx.cols.map FinColumn.year :=
  ⟨(C6_output_order provEx ["AAPL"] ["Operating Margin"]).1,
   (C6_output_order provEx ["AAPL"] ["Operating Margin"]).2 "AAPL" tableEx rfl⟩

/-- C8: the assembler is deterministic — it is a pure function of the
ticker list, the metric list, and the provider's responses on the listed
tickers: two providers agreeing on every listed ticker yield identical
metric tables (so two runs with identical responses coincide). -/
theorem C8_deterministic (p1 p2 : String → Option FinTable)
    (tickers metrics : List String) (h : ∀ t ∈ tickers, p1 t = p2 t) :
    calculate_financial_metrics p1 tickers metrics
      = calculate_financial_metrics p2 tickers metrics := by
  unfold calculate_financial_metrics
  congr 1
  revert h
  induction tickers with
  | nil => intro _; rfl
  | cons a l ih =>
    intro h
    rw [List.flatMap_cons, List.flatMap_cons,
      ih (fun t ht => h t (List.mem_cons_of_mem a ht))]
    congr 1
    have ha := h a (List.mem_cons_self a l)
    simp [tickerRecords, financial_data, ha]

/-- Witness for C8: `provEx2` differs from `provEx` only on an unlisted
ticker, so the outputs coincide. -/
theorem C8_deterministic_witness :
    calculate_financial_metrics provEx ["AAPL"] ["Net Profit Margin"]
      = calculate_financial_metrics provEx2 ["AAPL"] ["Net Profit Margin"] :=
  C8_deterministic provEx provEx2 ["AAPL"] ["Net Profit Margin"]
    (by simp [provEx, provEx2])

/-- C9: called with an empty ticker list, the assembler does not raise
and returns the empty metric table; the result does not depend on the
provider (no fetch can influence it). -/
theorem C9_empty_ticker_list (provider : String → Option FinTable)
    (metrics : List String) :
    calculate_financial_metrics provider [] metrics = []
    ∧ ∀ p2 : String → Option FinTable,
        calculate_financial_metrics provider [] metrics
          = calculate_financial_metrics p2 [] metrics :=
  ⟨rfl, fun _ => rfl⟩

/-- The guard chain only ever produces a value for one of the three
recognized metric names. -/
lemma metric_of_metricValue_some {m : String} {r : YearlyRow} {v : MVal}
    (h : metricValue m r = some v) :
    m = "Gross Profit Margin" ∨ m = "Net Profit Margin" ∨ m = "Operating Margin" := by
  simp only [metricValue] at h
  split at h
  · split at h
    · next hc =>
        simp at hc
        exact Or.inl hc.1
    · split at h
      · next hc =>
          simp at hc
          exact Or.inr (Or.inl hc.1)
      · split at h
        · next hc =>
            simp at hc
            exact Or.inr (Or.inr hc.1)
        · exact absurd h (by simp)
  · exact absurd h (by simp)

/-- C10: a requested metric name that is not one of the three recognized
strings falls through every branch of the guard chain: no row ever emits
a record for it, no output record carries it, and no error is raised. -/
theorem C10_unrecognized_metric_skipped (m : String)
    (h1 : m ≠ "Gross Profit Margin") (h2 : m ≠ "Net Profit Margin")
    (h3 : m ≠ "Operating Margin") :
    (∀ tk r, rowRecord tk m r = [])
    ∧ ∀ (provider : String → Option FinTable) (tickers metrics : List String),
        ∀ rec ∈ calculate_financial_metrics provider tickers metrics,
          rec.metric ≠ m := by
  have e1 : ∀ r : YearlyRow, metricValue m r = Option.none := by
    intro r
    have b1 : (m == "Gross Profit Margin") = false := beq_eq_false_iff_ne.mpr h1
    have b2 : (m == "Net Profit Margin") = false := beq_eq_false_iff_ne.mpr h2
    have b3 : (m == "Operating Margin") = false := beq_eq_false_iff_ne.mpr h3
    simp [metricValue, b1, b2, b3]
  constructor
  · intro tk r
    simp [rowRecord, e1 r]
  · intro provider tickers metrics rec hrec
    rcases List.mem_map.mp hrec with ⟨ri, hri, hfin⟩
    rcases List.mem_flatMap.mp hri with ⟨tk, _, hmem⟩
    simp only [tickerRecords] at hmem
    split at hmem
    · simp at hmem
    · rcases List.mem_flatMap.mp hmem with ⟨m', _, hr⟩
      rcases List.mem_flatMap.mp hr with ⟨r, _, hrr⟩
      have hmetric : ri.metric = m' := (ticker_metric_of_mem_rowRecord hrr).2
      have hsome : ∃ v, metricValue m' r = some v := by
        unfold rowRecord at hrr
        cases hv : metricValue m' r with
        | none => rw [hv] at hrr; simp at hrr
        | some v => exact ⟨v, rfl⟩
      rcases hsome with ⟨v, hv⟩
      have hrm : rec.metric = m' := by
        rw [← hfin]
        show (finalizeRecord ri).metric = m'
        simpa [finalizeRecord] using hmetric
      rw [hrm]
      rcases metric_of_metricValue_some hv with h | h | h <;> rw [h]
      · exact fun e => h1 e.symm
      · exact fun e => h2 e.symm
      · exact fun e => h3 e.symm

/-- Witness for C10: the unknown name EBITDA Margin emits nothing even on
a row whose revenue and numerators are all present. -/
theorem C10_unrecognized_metric_skipped_witness :
    rowRecord "AAPL" "EBITDA Margin" rowEx = [] :=
  (C10_unrecognized_metric_skipped "EBITDA Margin"
    (by decide) (by decide) (by decide)).1 "AAPL" rowEx

/-- The ten decimal digit characters are never a dot. -/
lemma digitChar_lt_ten_ne_dot {m : Nat} (h : m < 10) : Nat.digitChar m ≠ '.' := by
  interval_cases m <;> decide

/-- Every character produced by the decimal printer is an accumulator
character or the digit character of a remainder mod the base. -/
lemma mem_toDigitsCore (b : Nat) (hb : 0 < b) :
    ∀ (fuel n : Nat) (ds : List Char) (c : Char),
      c ∈ Nat.toDigitsCore b fuel n ds → c ∈ ds ∨ ∃ m, m < b ∧ c = Nat.digitChar m := by
  intro fuel
  induction fuel with
  | zero => intro n ds c h; exact Or.inl h
  | succ fuel ih =>
    intro n ds c h
    simp only [Nat.toDigitsCore] at h
    split at h
    · rcases List.mem_cons.mp h with h | h
      · exact Or.inr ⟨n % b, Nat.mod_lt n hb, h⟩
      · exact Or.inl h
    · rcases ih (n / b) (Nat.digitChar (n % b) :: ds) c h with hin | hd
      · rcases List.mem_cons.mp hin with h | h
        · exact Or.inr ⟨n % b, Nat.mod_lt n hb, h⟩
        · exact Or.inl h
      · exact Or.inr hd

/-- The decimal string of an integer contains sign and digit characters
only — in particular never a decimal point. -/
lemma int_toString_no_dot (i : Int) : ∀ c ∈ (toString i).data, c ≠ '.' := by
  cases i with
  | ofNat n =>
    intro c hc
    have hc2 : c ∈ Nat.toDigits 10 n := hc
    rcases mem_toDigitsCore 10 (by omega) (n + 1) n [] c hc2 with h | h
    · simp at h
    · rcases h with ⟨m, hm, rfl⟩
      exact digitChar_lt_ten_ne_dot hm
  | negSucc n =>
    intro c hc
    have hc2 : c ∈ '-' :: Nat.toDigits 10 (n + 1) := hc
    rcases List.mem_cons.mp hc2 with h | h
    · subst h; decide
    · rcases mem_toDigitsCore 10 (by omega) (n + 2) (n + 1) [] c h with h | h
      · simp at h
      · rcases h with ⟨m, hm, rfl⟩
        exact digitChar_lt_ten_ne_dot hm

/-- C7: every record of the returned table is the final stringification
of a record built with an integer Year (line 91); its Year field is the
decimal string of that integer and never contains a decimal point. -/
theorem C7_year_decimal_string (provider : String → Option FinTable)
    (tickers metrics : List String) :
    ∀ rec ∈ calculate_financial_metrics provider tickers metrics,
      ∃ ri : MetricRecordI,
        ri ∈ tickers.flatMap (tickerRecords provider metrics)
        ∧ rec = finalizeRecord ri
        ∧ rec.year = toString ri.year
        ∧ ∀ c ∈ rec.year.data, c ≠ '.' := by
  intro rec hrec
  rcases List.mem_map.mp hrec with ⟨ri, hri, hfin⟩
  refine ⟨ri, hri, hfin.symm, ?_, ?_⟩
  · rw [← hfin]
    rfl
  · rw [← hfin]
    exact int_toString_no_dot ri.year

/-- Evaluation of the assembler on the concrete witness provider: AAPL's
single 2023 column with revenue 200 and gross profit 80 yields exactly
the record `recEx` (value 40). -/
lemma calc_provEx_gpm :
    calculate_financial_metrics provEx ["AAPL"] ["Gross Profit Margin"] = [recEx] := by
  have h1 : ieeeMulC (ieeeDiv 80 200) 100 = MVal.fin 40 := by
    norm_num [ieeeDiv, ieeeMulC]
  have h2 : calculate_financial_metrics provEx ["AAPL"] ["Gross Profit Margin"]
      = [{ year := "2023", metric := "Gross Profit Margin", ticker := "AAPL",
           value := ieeeMulC (ieeeDiv 80 200) 100 }] := rfl
  rw [h2, h1]
  rfl

/-- Witness for C7: the single AAPL record has Year "2023", the decimal
string of the integer 2023. -/
theorem C7_year_decimal_string_witness :
    ∃ ri : MetricRecordI,
      ri ∈ ["AAPL"].flatMap (tickerRecords provEx ["Gross Profit Margin"])
      ∧ recEx = finalizeRecord ri
      ∧ recEx.year = toString ri.year
      ∧ ∀ c ∈ recEx.year.data, c ≠ '.' :=
  C7_year_decimal_string provEx ["AAPL"] ["Gross Profit Margin"] recEx
    (by rw [calc_provEx_gpm]; exact List.mem_singleton.mpr rfl)

end StockApp
